import Mathlib

/-!
# Verification of the webtest-framework behavioral contract

A shallow embedding of the pure logic of `webtest_framework` (Python):

* `page.py` — `BasePage`: URL joining in `navigate`, and the fluent
  "return self" chaining contract, modelled over an explicit object heap
  so that "same instance" is reference identity.
* `config.py` — `Config` / `BrowserConfig`: defaults, `from_yaml`,
  `from_env` (including Python truthiness of `os.getenv` results under
  the walrus pattern, `str.lower`, and `int(...)` parsing).
* `api.py` — `Response` (`ok`, `json`), `APIClient._make_request`
  (URL join, `{**default_headers, **call_headers}` merge), and the
  assertion helpers (`assert_json_contains`).

Machine integers are modelled as `Int`/`Nat` (Python ints are unbounded);
fallible code returns `Except`/`Option`.
-/

namespace Webtest

/-! ## Python string primitives used by the code -/

/-- Python `s.lstrip("/")`: drop every leading `'/'`. -/
def lstripSlash (s : String) : String :=
  ⟨s.data.dropWhile (· == '/')⟩

/-- Python `s.rstrip("/")`: drop every trailing `'/'`. -/
def rstripSlash (s : String) : String :=
  ⟨(s.data.reverse.dropWhile (· == '/')).reverse⟩

/-- Characters stripped by Python `str.strip()` with no argument
(ASCII whitespace; the model is restricted to ASCII input). -/
def isPySpace (c : Char) : Bool :=
  c == ' ' || c == '\t' || c == '\n' || c == '\x0d' || c == '\x0b' || c == '\x0c'

/-- Digit run with Python underscore grouping: after the first digit,
a single `'_'` may separate digits (`int("1_000")` is legal, trailing or
doubled underscores are not). Accumulates the value. -/
def pyDigitsAux (acc : Nat) : List Char → Option Nat
  | [] => some acc
  | '_' :: c :: cs =>
      if c.isDigit then pyDigitsAux (acc * 10 + (c.toNat - 48)) cs else none
  | c :: cs =>
      if c.isDigit then pyDigitsAux (acc * 10 + (c.toNat - 48)) cs else none

/-- Nonempty digit run (with underscore grouping), as a value. -/
def pyDigits : List Char → Option Nat
  | [] => none
  | '_' :: _ => none
  | c :: cs => if c.isDigit then pyDigitsAux (c.toNat - 48) cs else none

/-- Python `int(s)` on a string: surrounding whitespace, an optional
sign, then digits (underscore grouping allowed); anything else raises
`ValueError`, modelled as `none`. -/
def pyInt (s : String) : Option Int :=
  let body := ((s.data.dropWhile isPySpace).reverse.dropWhile isPySpace).reverse
  match body with
  | '+' :: rest => (pyDigits rest).map Int.ofNat
  | '-' :: rest => (pyDigits rest).map (fun n => -(n : Int))
  | rest => (pyDigits rest).map Int.ofNat

/-! ## `BasePage.navigate` URL joining (`page.py`) -/

/-- `page.py` line 43:
`url = f"{self.base_url.rstrip('/')}/{path.lstrip('/')}" if path else self.base_url`
(`if path` is Python truthiness: any nonempty string). -/
def navigate_url (base_url path : String) : String :=
  if path = "" then base_url
  else rstripSlash base_url ++ "/" ++ lstripSlash path

/-! ### Facts about dropWhile used to characterize the stripping -/

theorem takeWhile_eq_replicate_slash (l : List Char) :
    l.takeWhile (· == '/') = List.replicate (l.takeWhile (· == '/')).length '/' := by
  induction l with
  | nil => rfl
  | cons c cs ih =>
      by_cases h : c = '/'
      · subst h
        simp [List.takeWhile_cons, List.replicate_succ] at ih ⊢
        exact ih
      · simp [List.takeWhile_cons, h]

theorem head?_dropWhile_slash (l : List Char) :
    (l.dropWhile (· == '/')).head? ≠ some '/' := by
  induction l with
  | nil => simp [List.dropWhile]
  | cons c cs ih =>
      by_cases h : c = '/'
      · subst h; simpa [List.dropWhile_cons] using ih
      · simp [List.dropWhile_cons, h]

theorem slash_decomp (l : List Char) :
    l = List.replicate (l.takeWhile (· == '/')).length '/' ++ l.dropWhile (· == '/') := by
  conv_lhs => rw [← List.takeWhile_append_dropWhile (p := (· == '/')) (l := l)]
  rw [← takeWhile_eq_replicate_slash]

theorem data_rstripSlash (s : String) :
    s.data = (rstripSlash s).data ++
      List.replicate (s.data.reverse.takeWhile (· == '/')).length '/' := by
  conv_lhs => rw [← List.reverse_reverse s.data, slash_decomp s.data.reverse]
  simp [rstripSlash, List.reverse_append, List.reverse_replicate]

theorem getLast?_rstripSlash (s : String) :
    (rstripSlash s).data.getLast? ≠ some '/' := by
  simpa [rstripSlash, List.getLast?_reverse] using head?_dropWhile_slash s.data.reverse

/-- C1: `BasePage.navigate` joins base URL and path by stripping all
trailing slashes from the base and all leading slashes from the path and
inserting exactly one separating slash; `"http://localhost:8000"` with
`"/dashboard"` yields `"http://localhost:8000/dashboard"`, and for every
base URL the empty path yields the bare base URL unchanged. -/
theorem navigate_url_spec :
    navigate_url "http://localhost:8000" "/dashboard" = "http://localhost:8000/dashboard"
    ∧ (∀ base_url : String, navigate_url base_url "" = base_url)
    ∧ (∀ base_url path : String, path ≠ "" →
        ∃ (stem rest : List Char) (k m : Nat),
          base_url.data = stem ++ List.replicate k '/' ∧
          stem.getLast? ≠ some '/' ∧
          path.data = List.replicate m '/' ++ rest ∧
          rest.head? ≠ some '/' ∧
          (navigate_url base_url path).data = stem ++ '/' :: rest) := by
  refine ⟨rfl, fun base_url => by simp [navigate_url], ?_⟩
  intro base_url path hp
  refine ⟨(rstripSlash base_url).data, (lstripSlash path).data,
    (base_url.data.reverse.takeWhile (· == '/')).length,
    (path.data.takeWhile (· == '/')).length,
    data_rstripSlash base_url, getLast?_rstripSlash base_url,
    slash_decomp path.data, head?_dropWhile_slash path.data, ?_⟩
  simp [navigate_url, hp, lstripSlash]

/-- Witness for C1 at base URL `"http://x//"`, path `"//dash"`. -/
theorem navigate_url_spec_witness :
    ∃ (stem rest : List Char) (k m : Nat),
      ("http://x//" : String).data = stem ++ List.replicate k '/' ∧
      stem.getLast? ≠ some '/' ∧
      ("//dash" : String).data = List.replicate m '/' ++ rest ∧
      rest.head? ≠ some '/' ∧
      (navigate_url "http://x//" "//dash").data = stem ++ '/' :: rest :=
  navigate_url_spec.2.2 "http://x//" "//dash" (by decide)

/-! ## `BasePage` chaining (`page.py`)

The Playwright page is out of scope (a black box); it is modelled as a
command log plus an oracle deciding whether each engine operation
succeeds (navigation errors, wait timeouts and failed `expect`
assertions raise, aborting the chain — modelled as `none`).  Python
object identity is modelled with an explicit heap of `BasePage`
instances addressed by references (`Nat`); each method takes the heap
and the receiver reference, mutates only the underlying page, and
returns the reference it hands back — reference equality with the
receiver is exactly "returns the same instance". -/

/-- One operation delegated to the underlying Playwright page —
one constructor per `self.page.…` call in `page.py`. -/
inductive PWCmd where
  | goto (url : String)
  | wait_for_load_state (st : String)
  | reloadPage
  | screenshot (path : String) (full_page : Bool)
  | click (selector : String)
  | fill (selector : String) (value : String)
  | typeText (selector : String) (value : String) (delay : Int)
  | select_option (selector : String) (value : String)
  | check (selector : String)
  | uncheck (selector : String)
  | wait_for_selector (selector : String) (state : String) (timeout : Option Int)
  | wait_for_url (url : String) (timeout : Option Int)
  | expect_visible (selector : String)
  | expect_hidden (selector : String)
  | expect_text (selector : String) (text : String)
  | expect_value (selector : String) (value : String)
deriving DecidableEq

/-- Model of one Playwright page: the commands it has executed and an
oracle giving the engine's outcome for each operation (`false` = the
underlying call raises: timeout, assertion failure, navigation error). -/
structure PWPage where
  log : List PWCmd
  oracle : PWCmd → Bool

/-- The two attributes `BasePage.__init__` stores: the Playwright page
(by reference) and the base URL. -/
structure BasePageFields where
  page : Nat
  base_url : String

/-- Heap of Playwright pages and `BasePage` objects, addressed by `Nat`
references. -/
structure PageHeap where
  pages : Nat → PWPage
  objs : Nat → BasePageFields

/-- Delegate one command to the Playwright page `pid`: on success the
command is appended to that page's log, on engine failure the exception
propagates (`none`). -/
def pageOp (h : PageHeap) (pid : Nat) (c : PWCmd) : Option PageHeap :=
  if (h.pages pid).oracle c then
    some { h with
      pages := fun i =>
        if i = pid then { h.pages pid with log := (h.pages pid).log ++ [c] }
        else h.pages i }
  else none

/-- Run a command on the receiver's page and return `self`. -/
def selfOp (h : PageHeap) (self : Nat) (c : PWCmd) : Option (PageHeap × Nat) :=
  (pageOp h (h.objs self).page c).map (fun h2 => (h2, self))

namespace BasePage

/-- `BasePage.navigate`: builds the joined URL and calls `page.goto`. -/
def navigate (h : PageHeap) (self : Nat) (path : String) : Option (PageHeap × Nat) :=
  selfOp h self (.goto (navigate_url (h.objs self).base_url path))

/-- `BasePage.wait_for_load`: `page.wait_for_load_state("networkidle")`. -/
def wait_for_load (h : PageHeap) (self : Nat) : Option (PageHeap × Nat) :=
  selfOp h self (.wait_for_load_state "networkidle")

/-- `BasePage.reload`: `page.reload()`. -/
def reload (h : PageHeap) (self : Nat) : Option (PageHeap × Nat) :=
  selfOp h self .reloadPage

/-- `BasePage.screenshot`: `page.screenshot(path=path, full_page=True)`. -/
def screenshot (h : PageHeap) (self : Nat) (path : String) : Option (PageHeap × Nat) :=
  selfOp h self (.screenshot path true)

/-- `BasePage.click`: `page.click(selector)`. -/
def click (h : PageHeap) (self : Nat) (selector : String) : Option (PageHeap × Nat) :=
  selfOp h self (.click selector)

/-- `BasePage.fill`: `page.fill(selector, value)`. -/
def fill (h : PageHeap) (self : Nat) (selector value : String) : Option (PageHeap × Nat) :=
  selfOp h self (.fill selector value)

/-- `BasePage.type`: `page.type(selector, value, delay=delay)` (default
delay 50). -/
def type (h : PageHeap) (self : Nat) (selector value : String) (delay : Int := 50) :
    Option (PageHeap × Nat) :=
  selfOp h self (.typeText selector value delay)

/-- `BasePage.select`: `page.select_option(selector, value)`. -/
def select (h : PageHeap) (self : Nat) (selector value : String) : Option (PageHeap × Nat) :=
  selfOp h self (.select_option selector value)

/-- `BasePage.check`: `page.check(selector)`. -/
def check (h : PageHeap) (self : Nat) (selector : String) : Option (PageHeap × Nat) :=
  selfOp h self (.check selector)

/-- `BasePage.uncheck`: `page.uncheck(selector)`. -/
def uncheck (h : PageHeap) (self : Nat) (selector : String) : Option (PageHeap × Nat) :=
  selfOp h self (.uncheck selector)

/-- `BasePage.wait_for`: `page.wait_for_selector(selector, state=state,
timeout=timeout)` (default state `"visible"`, default timeout `None`). -/
def wait_for (h : PageHeap) (self : Nat) (selector : String) (state : String := "visible")
    (timeout : Option Int := none) : Option (PageHeap × Nat) :=
  selfOp h self (.wait_for_selector selector state timeout)

/-- `BasePage.wait_for_url`: `page.wait_for_url(url, timeout=timeout)`. -/
def wait_for_url (h : PageHeap) (self : Nat) (url : String)
    (timeout : Option Int := none) : Option (PageHeap × Nat) :=
  selfOp h self (.wait_for_url url timeout)

/-- `BasePage.expect_visible`: `expect(locator).to_be_visible()`. -/
def expect_visible (h : PageHeap) (self : Nat) (selector : String) : Option (PageHeap × Nat) :=
  selfOp h self (.expect_visible selector)

/-- `BasePage.expect_hidden`: `expect(locator).to_be_hidden()`. -/
def expect_hidden (h : PageHeap) (self : Nat) (selector : String) : Option (PageHeap × Nat) :=
  selfOp h self (.expect_hidden selector)

/-- `BasePage.expect_text`: `expect(locator).to_have_text(text)`. -/
def expect_text (h : PageHeap) (self : Nat) (selector text : String) : Option (PageHeap × Nat) :=
  selfOp h self (.expect_text selector text)

/-- `BasePage.expect_value`: `expect(locator).to_have_value(value)`. -/
def expect_value (h : PageHeap) (self : Nat) (selector value : String) : Option (PageHeap × Nat) :=
  selfOp h self (.expect_value selector value)

end BasePage

/-- The returned reference is the receiver and no `BasePage` object is
created or modified (only the underlying Playwright page changes). -/
def returnsSelf (h : PageHeap) (self : Nat) (r : Option (PageHeap × Nat)) : Prop :=
  ∀ p ∈ r, p.2 = self ∧ p.1.objs = h.objs

/-- The chain `test_page.py` uses:
`page.navigate(path).wait_for_load().click(sel1).fill(sel2, value)`,
each call receiving the reference the previous one returned. -/
def chain4 (h : PageHeap) (self : Nat) (path sel1 sel2 value : String) :
    Option (PageHeap × Nat) :=
  (BasePage.navigate h self path).bind (fun p1 =>
    (BasePage.wait_for_load p1.1 p1.2).bind (fun p2 =>
      (BasePage.click p2.1 p2.2 sel1).bind (fun p3 =>
        BasePage.fill p3.1 p3.2 sel2 value)))

theorem selfOp_returnsSelf (h : PageHeap) (self : Nat) (c : PWCmd) :
    returnsSelf h self (selfOp h self c) := by
  intro p hp
  simp only [selfOp, pageOp] at hp
  by_cases hc : (h.pages (h.objs self).page).oracle c
  · simp [hc] at hp
    simp [← hp]
  · simp [hc] at hp

theorem selfOp_eq_some {h : PageHeap} {self : Nat} {c : PWCmd} {p : PageHeap × Nat}
    (hp : selfOp h self c = some p) : p.2 = self ∧ p.1.objs = h.objs :=
  selfOp_returnsSelf h self c p (Option.mem_def.mpr hp)

/-- C2: every mutating interaction method of `BasePage` (navigate,
wait_for_load, reload, screenshot, click, fill, type, select, check,
uncheck, wait_for, wait_for_url and the expect assertions) hands back the
very reference it was called on, leaving every `BasePage` object in the
heap untouched, so a chain of four such calls ends at a reference
identical to the original instance. -/
theorem basePage_returns_self (h : PageHeap) (self : Nat)
    (path selector value url state text : String) (delay : Int) (timeout : Option Int)
    (sel1 sel2 fillv : String) :
    (returnsSelf h self (BasePage.navigate h self path)
      ∧ returnsSelf h self (BasePage.wait_for_load h self)
      ∧ returnsSelf h self (BasePage.reload h self)
      ∧ returnsSelf h self (BasePage.screenshot h self path)
      ∧ returnsSelf h self (BasePage.click h self selector)
      ∧ returnsSelf h self (BasePage.fill h self selector value)
      ∧ returnsSelf h self (BasePage.type h self selector value delay)
      ∧ returnsSelf h self (BasePage.select h self selector value)
      ∧ returnsSelf h self (BasePage.check h self selector)
      ∧ returnsSelf h self (BasePage.uncheck h self selector)
      ∧ returnsSelf h self (BasePage.wait_for h self selector state timeout)
      ∧ returnsSelf h self (BasePage.wait_for_url h self url timeout)
      ∧ returnsSelf h self (BasePage.expect_visible h self selector)
      ∧ returnsSelf h self (BasePage.expect_hidden h self selector)
      ∧ returnsSelf h self (BasePage.expect_text h self selector text)
      ∧ returnsSelf h self (BasePage.expect_value h self selector value))
    ∧ returnsSelf h self (chain4 h self path sel1 sel2 fillv) := by
  constructor
  · exact ⟨selfOp_returnsSelf h self _, selfOp_returnsSelf h self _,
      selfOp_returnsSelf h self _, selfOp_returnsSelf h self _,
      selfOp_returnsSelf h self _, selfOp_returnsSelf h self _,
      selfOp_returnsSelf h self _, selfOp_returnsSelf h self _,
      selfOp_returnsSelf h self _, selfOp_returnsSelf h self _,
      selfOp_returnsSelf h self _, selfOp_returnsSelf h self _,
      selfOp_returnsSelf h self _, selfOp_returnsSelf h self _,
      selfOp_returnsSelf h self _, selfOp_returnsSelf h self _⟩
  · intro p hp
    rw [Option.mem_def, chain4] at hp
    obtain ⟨p1, h1, hp⟩ := Option.bind_eq_some.mp hp
    obtain ⟨p2, h2, hp⟩ := Option.bind_eq_some.mp hp
    obtain ⟨p3, h3, hp⟩ := Option.bind_eq_some.mp hp
    obtain ⟨e1, o1⟩ := selfOp_eq_some h1
    obtain ⟨e2, o2⟩ := selfOp_eq_some h2
    obtain ⟨e3, o3⟩ := selfOp_eq_some h3
    obtain ⟨e4, o4⟩ := selfOp_eq_some hp
    exact ⟨by rw [e4, e3, e2, e1], by rw [o4, o3, o2, o1]⟩

/-- A concrete heap: every engine operation succeeds, object `0` wraps
page `0` with the default base URL. -/
def heap0 : PageHeap :=
  { pages := fun _ => { log := [], oracle := fun _ => true },
    objs := fun _ => { page := 0, base_url := "http://localhost:8000" } }

/-- The heap after running the four-call chain on `heap0`. -/
def heap4 : PageHeap :=
  ((chain4 heap0 0 "/dashboard" "#button" "#input" "value").getD (heap0, 0)).1

/-- Witness for C2: the four-call chain on the concrete heap succeeds and
returns reference `0`, the original instance, with the object store
unchanged. -/
theorem basePage_returns_self_witness :
    ((heap4, 0) : PageHeap × Nat).2 = 0 ∧ heap4.objs = heap0.objs :=
  (basePage_returns_self heap0 0 "/dashboard" "#s" "v" "u" "visible" "t" 50 none
    "#button" "#input" "value").2 (heap4, 0) (Option.mem_def.mpr rfl)

/-! ## Configuration (`config.py`) -/

/-- `BrowserConfig` (pydantic model) with its field defaults. -/
structure BrowserConfig where
  headless : Bool := true
  slow_mo : Int := 0
  viewport_width : Int := 1280
  viewport_height : Int := 720
  timeout : Int := 30000
deriving DecidableEq, Repr

/-- `Config` (pydantic model) with its field defaults. -/
structure Config where
  base_url : String := "http://localhost:8000"
  browser : BrowserConfig := {}
  screenshot_on_failure : Bool := true
  screenshot_dir : String := "screenshots"
  api_timeout : Int := 10
deriving DecidableEq, Repr

/-- The walrus-guarded read `if x := os.getenv(k): …` in `from_env`:
the value is used only when the variable is present AND nonempty
(Python truthiness of strings). -/
def envTruthy (env : String → Option String) (k : String) : Option String :=
  match env k with
  | some v => if v = "" then none else some v
  | none => none

/-- Python `s.lower()` (ASCII; the model is restricted to ASCII input). -/
def pyLower (s : String) : String := ⟨s.data.map Char.toLower⟩

/-- `headless.lower() == "true"` when the variable was used, else the
pydantic default `True`. -/
def headlessOf : Option String → Bool
  | some hv => pyLower hv == "true"
  | none => true

/-- `Config.from_env` (`config.py` lines 42-56): builds `config_data`
from the three recognized variables and calls `cls(**config_data)`;
`int(timeout)` raises `ValueError` on an unparsable value, modelled as
`Except.error`.  Unset fields take the pydantic defaults. -/
def Config.from_env (env : String → Option String) : Except String Config :=
  match envTruthy env "TEST_TIMEOUT" with
  | some t =>
      match pyInt t with
      | some n =>
          .ok { base_url := (envTruthy env "TEST_BASE_URL").getD "http://localhost:8000",
                browser := { headless := headlessOf (envTruthy env "TEST_HEADLESS"),
                             timeout := n } }
      | none => .error ("invalid literal for int() with base 10: " ++ t)
  | none =>
      .ok { base_url := (envTruthy env "TEST_BASE_URL").getD "http://localhost:8000",
            browser := { headless := headlessOf (envTruthy env "TEST_HEADLESS") } }

/-- Optional keys of the nested `browser` mapping of a YAML config file. -/
structure BrowserData where
  headless : Option Bool := none
  slow_mo : Option Int := none
  viewport_width : Option Int := none
  viewport_height : Option Int := none
  timeout : Option Int := none

/-- Optional top-level keys of a YAML config file (a validated mapping:
documents pydantic rejects raise before construction and are outside
this model). -/
structure ConfigData where
  base_url : Option String := none
  browser : Option BrowserData := none
  screenshot_on_failure : Option Bool := none
  screenshot_dir : Option String := none
  api_timeout : Option Int := none

/-- pydantic construction of `BrowserConfig` from a partial mapping. -/
def BrowserConfig.ofData (d : BrowserData) : BrowserConfig :=
  { headless := d.headless.getD true,
    slow_mo := d.slow_mo.getD 0,
    viewport_width := d.viewport_width.getD 1280,
    viewport_height := d.viewport_height.getD 720,
    timeout := d.timeout.getD 30000 }

/-- `Config.from_yaml` (`config.py` lines 30-40). `none` — the path does
not exist (`return cls()`); `some none` — the file exists but
`yaml.safe_load` returned a falsy document (`cls()` again); `some (some
d)` — the parsed mapping (`cls(**data)`). -/
def Config.from_yaml : Option (Option ConfigData) → Config
  | none => {}
  | some none => {}
  | some (some d) =>
      { base_url := d.base_url.getD "http://localhost:8000",
        browser := (d.browser.map BrowserConfig.ofData).getD {},
        screenshot_on_failure := d.screenshot_on_failure.getD true,
        screenshot_dir := d.screenshot_dir.getD "screenshots",
        api_timeout := d.api_timeout.getD 10 }

theorem envTruthy_getD (env : String → Option String) (k d : String) :
    (envTruthy env k).getD d =
      (match env k with
       | some v => if v = "" then d else v
       | none => d) := by
  unfold envTruthy
  rcases env k with _ | v
  · rfl
  · by_cases h : v = "" <;> simp [h]

theorem headlessOf_envTruthy (env : String → Option String) :
    headlessOf (envTruthy env "TEST_HEADLESS") =
      (match env "TEST_HEADLESS" with
       | some v => if v = "" then true else (pyLower v == "true")
       | none => true) := by
  unfold envTruthy
  rcases env "TEST_HEADLESS" with _ | v
  · rfl
  · by_cases h : v = "" <;> simp [h, headlessOf]

/-- Whatever the environment, a successful `from_env` returns exactly
this `Config` (all unmentioned fields at their defaults). -/
theorem from_env_ok (env : String → Option String) (c : Config)
    (hc : Config.from_env env = .ok c) :
    c = { base_url := (envTruthy env "TEST_BASE_URL").getD "http://localhost:8000",
          browser := { headless := headlessOf (envTruthy env "TEST_HEADLESS"),
                       timeout := ((envTruthy env "TEST_TIMEOUT").map
                         (fun v => (pyInt v).getD 30000)).getD 30000 } } := by
  rw [Config.from_env] at hc
  rcases htt : envTruthy env "TEST_TIMEOUT" with _ | t <;> simp only [htt] at hc
  · simpa using (Except.ok.inj hc).symm
  · rcases hpi : pyInt t with _ | n <;> simp only [hpi] at hc
    · exact absurd hc (by simp)
    · rw [← Except.ok.inj hc]
      simp [hpi]

/-- C4: with no configuration file and none of the recognized variables
set, both resolution paths return exactly the documented defaults:
base URL `http://localhost:8000`, headless browser, no slow motion,
1280×720 viewport, 30000 ms timeout, screenshots on failure into
`screenshots`, 10 s API timeout. -/
theorem config_defaults :
    (∀ env : String → Option String,
      env "TEST_BASE_URL" = none → env "TEST_HEADLESS" = none →
      env "TEST_TIMEOUT" = none → Config.from_env env = .ok {})
    ∧ Config.from_yaml none = {}
    ∧ ({} : Config).base_url = "http://localhost:8000"
    ∧ ({} : Config).browser.headless = true
    ∧ ({} : Config).browser.slow_mo = 0
    ∧ ({} : Config).browser.viewport_width = 1280
    ∧ ({} : Config).browser.viewport_height = 720
    ∧ ({} : Config).browser.timeout = 30000
    ∧ ({} : Config).screenshot_on_failure = true
    ∧ ({} : Config).screenshot_dir = "screenshots"
    ∧ ({} : Config).api_timeout = 10 := by
  refine ⟨?_, rfl, rfl, rfl, rfl, rfl, rfl, rfl, rfl, rfl, rfl⟩
  intro env h1 h2 h3
  simp [Config.from_env, envTruthy, headlessOf, h1, h2, h3]

/-- Witness for C4: the empty environment. -/
theorem config_defaults_witness :
    Config.from_env (fun _ => none) = .ok {} :=
  config_defaults.1 (fun _ => none) rfl rfl rfl

/-- Environment where `TEST_HEADLESS` is set to the empty string. -/
def envHeadlessEmpty : String → Option String :=
  fun k => if k = "TEST_HEADLESS" then some "" else none

/-- C3 counterexample: `TEST_HEADLESS` set to `""` — a value other than
`"true"` case-insensitively — yet `from_env` yields `headless = true`
(the walrus `if headless := os.getenv(…)` treats the empty string as
unset), contradicting "headless=false for any other value". -/
theorem from_env_empty_headless_counterexample :
    envHeadlessEmpty "TEST_HEADLESS" = some "" ∧
    (pyLower "" == "true") = false ∧
    Config.from_env envHeadlessEmpty = .ok {} ∧
    ({} : Config).browser.headless = true :=
  ⟨rfl, by decide, rfl, rfl⟩

/-- C3 (amended): whenever `from_env` returns a `Config`, each
recognized variable overrides its field exactly when it is set to a
NONEMPTY value (`TEST_BASE_URL` replaces the base URL; a nonempty
`TEST_HEADLESS` maps to `headless = true` iff it lowercases to
`"true"`; a nonempty `TEST_TIMEOUT` replaces the browser timeout with
its parsed integer); empty-string values are treated as unset, and all
other fields keep their defaults. -/
theorem from_env_overrides (env : String → Option String) :
    ∀ c, Config.from_env env = .ok c →
      c.base_url = (match env "TEST_BASE_URL" with
        | some v => if v = "" then "http://localhost:8000" else v
        | none => "http://localhost:8000")
      ∧ c.browser.headless = (match env "TEST_HEADLESS" with
        | some v => if v = "" then true else (pyLower v == "true")
        | none => true)
      ∧ c.browser.timeout = (match env "TEST_TIMEOUT" with
        | some v => if v = "" then 30000 else (pyInt v).getD 30000
        | none => 30000)
      ∧ c.browser.slow_mo = 0
      ∧ c.browser.viewport_width = 1280
      ∧ c.browser.viewport_height = 720
      ∧ c.screenshot_on_failure = true
      ∧ c.screenshot_dir = "screenshots"
      ∧ c.api_timeout = 10 := by
  intro c hc
  obtain rfl := from_env_ok env c hc
  refine ⟨envTruthy_getD env "TEST_BASE_URL" _, headlessOf_envTruthy env, ?_,
    rfl, rfl, rfl, rfl, rfl, rfl⟩
  show ((envTruthy env "TEST_TIMEOUT").map (fun v => (pyInt v).getD 30000)).getD 30000 = _
  unfold envTruthy
  rcases env "TEST_TIMEOUT" with _ | v
  · rfl
  · by_cases h : v = "" <;> simp [h]

/-- The spec's example environment for C3. -/
def envC3 : String → Option String := fun k =>
  if k = "TEST_BASE_URL" then some "https://env.example.com"
  else if k = "TEST_HEADLESS" then some "false"
  else if k = "TEST_TIMEOUT" then some "60000"
  else none

/-- The `Config` that `from_env` produces on `envC3`. -/
def cEnvC3 : Config :=
  { base_url := "https://env.example.com",
    browser := { headless := false, timeout := 60000 } }

/-- Witness for C3 (amended) at the spec's example environment:
`TEST_BASE_URL=https://env.example.com`, `TEST_HEADLESS=false`,
`TEST_TIMEOUT=60000`. -/
theorem from_env_overrides_witness :
    cEnvC3.base_url = "https://env.example.com" ∧
    cEnvC3.browser.headless = false ∧
    cEnvC3.browser.timeout = 60000 := by
  obtain ⟨h1, h2, h3, -⟩ := from_env_overrides envC3 cEnvC3 rfl
  exact ⟨h1, h2, h3⟩

/-- Environment where `TEST_TIMEOUT` is set to the empty string. -/
def envTimeoutEmpty : String → Option String :=
  fun k => if k = "TEST_TIMEOUT" then some "" else none

/-- C6 counterexample: `TEST_TIMEOUT` set to `""` — a value `int()`
cannot parse — yet `from_env` raises nothing and returns the default
`Config` (the walrus `if timeout := os.getenv(…)` treats the empty
string as unset, so `int` is never called). -/
theorem from_env_empty_timeout_counterexample :
    envTimeoutEmpty "TEST_TIMEOUT" = some "" ∧
    pyInt "" = none ∧
    Config.from_env envTimeoutEmpty = .ok {} :=
  ⟨rfl, rfl, rfl⟩

/-- C6 (amended): when `TEST_TIMEOUT` is set to a NONEMPTY value that
does not parse as an integer, `Config.from_env` raises a configuration
error rather than returning a `Config`; when it parses, no error is
raised on that path and the parsed value becomes the browser timeout
(an empty value is treated as unset and raises nothing). -/
theorem from_env_timeout_error (env : String → Option String) (v : String)
    (hv : env "TEST_TIMEOUT" = some v) (hne : v ≠ "") :
    (pyInt v = none →
      Config.from_env env = .error ("invalid literal for int() with base 10: " ++ v))
    ∧ (∀ n, pyInt v = some n →
        ∃ c, Config.from_env env = .ok c ∧ c.browser.timeout = n) := by
  have htt : envTruthy env "TEST_TIMEOUT" = some v := by
    unfold envTruthy; rw [hv]; simp [hne]
  constructor
  · intro hpi
    simp only [Config.from_env, htt, hpi]
  · intro n hpi
    refine ⟨{ base_url := (envTruthy env "TEST_BASE_URL").getD "http://localhost:8000",
              browser := { headless := headlessOf (envTruthy env "TEST_HEADLESS"),
                           timeout := n } }, ?_, rfl⟩
    simp only [Config.from_env, htt, hpi]

/-- Environment where `TEST_TIMEOUT` is set to `"abc"`. -/
def envTimeoutBad : String → Option String :=
  fun k => if k = "TEST_TIMEOUT" then some "abc" else none

/-- Witness for C6 (amended): `TEST_TIMEOUT=abc` is fatal. -/
theorem from_env_timeout_error_witness :
    Config.from_env envTimeoutBad =
      .error ("invalid literal for int() with base 10: " ++ "abc") :=
  (from_env_timeout_error envTimeoutBad "abc" rfl (by decide)).1 rfl

/-- YAML data carrying a negative `browser.slow_mo`. -/
def negConfigData : ConfigData :=
  { browser := some { slow_mo := some (-5) } }

/-- C5 counterexample: the resolver performs no non-negativity
validation — a config file with `browser: {slow_mo: -5}` produces a
`Config` whose `slow_mo` is negative. -/
theorem settings_nonneg_counterexample :
    (Config.from_yaml (some (some negConfigData))).browser.slow_mo = -5 ∧
    (Config.from_yaml (some (some negConfigData))).browser.slow_mo < 0 :=
  ⟨rfl, by decide⟩

/-- C5 (amended): the configuration models do not validate
non-negativity of file- or environment-supplied numbers, but the
defaults alone always yield a valid `Config` — absent any file the
resolver returns the default object, and every numeric field of the
defaults is non-negative. -/
theorem default_settings_nonneg :
    Config.from_yaml none = ({} : Config) ∧
    0 ≤ ({} : Config).browser.slow_mo ∧
    0 ≤ ({} : Config).browser.viewport_width ∧
    0 ≤ ({} : Config).browser.viewport_height ∧
    0 ≤ ({} : Config).browser.timeout ∧
    0 ≤ ({} : Config).api_timeout :=
  ⟨rfl, by decide, by decide, by decide, by decide, by decide⟩

/-! ## API testing utilities (`api.py`)

JSON values are modelled without floats (the claims involve none); the
HTTP transport is a black box, modelled as an oracle plus a request log
inside an explicit world state. -/

/-- A parsed JSON value (`dict | list | …` in the Python annotations). -/
inductive Json where
  | null
  | bool (b : Bool)
  | int (n : Int)
  | str (s : String)
  | arr (xs : List Json)
  | obj (kvs : List (String × Json))

/-- First-occurrence association-list lookup — Python dict indexing /
`key in d` on dicts with unique keys. -/
def dictLookup {α : Type} (k : String) : List (String × α) → Option α
  | [] => none
  | (k2, v) :: rest => if k = k2 then some v else dictLookup k rest

mutual
/-- Python `==` on JSON values: `True == 1` and `False == 0` (bool is an
int subtype), lists elementwise, dicts as unordered mappings with equal
key sets. -/
def pyEq : Json → Json → Bool
  | .null, .null => true
  | .bool a, .bool b => a == b
  | .bool a, .int n => (if a then (1 : Int) else 0) == n
  | .int n, .bool a => n == (if a then (1 : Int) else 0)
  | .int m, .int n => m == n
  | .str a, .str b => a == b
  | .arr xs, .arr ys => pyEqList xs ys
  | .obj a, .obj b => a.length == b.length && pyEqObj a b
  | _, _ => false
termination_by a _ => sizeOf a

/-- Elementwise Python `==` on JSON lists. -/
def pyEqList : List Json → List Json → Bool
  | [], [] => true
  | x :: xs, y :: ys => pyEq x y && pyEqList xs ys
  | _, _ => false
termination_by xs _ => sizeOf xs

/-- Every binding of the first dict is matched (by Python `==`) in the
second. -/
def pyEqObj : List (String × Json) → List (String × Json) → Bool
  | [], _ => true
  | (k, v) :: rest, b =>
      (match dictLookup k b with
       | some w => pyEq v w
       | none => false) && pyEqObj rest b
termination_by a _ => sizeOf a
end

/-- The `Response` dataclass of `api.py`. -/
structure Response where
  status_code : Int
  json_data : Option Json
  text : String
  headers : List (String × String)
  elapsed_ms : Rat

/-- `Response.ok`: `200 <= self.status_code < 300`. -/
def Response.ok (r : Response) : Bool :=
  decide (200 ≤ r.status_code) && decide (r.status_code < 300)

/-- `Response.json`: returns the parsed data, raising
`ValueError("Response is not JSON")` when there is none. -/
def Response.json (r : Response) : Except String Json :=
  match r.json_data with
  | none => .error "Response is not JSON"
  | some d => .ok d

/-- `assert_json_contains(response, key, value=None)` (`api.py` lines
115-121): calls `response.json()` (which may raise), then asserts the
body is a dict, that `key` is present, and — when a value was supplied —
that the stored value equals it under Python `==`.  (The Python mismatch
message interpolates both values; the model keeps a fixed text.) -/
def assert_json_contains (r : Response) (key : String) (value : Option Json) :
    Except String Unit :=
  match r.json with
  | .error e => .error e
  | .ok data =>
      match data with
      | .obj kvs =>
          match dictLookup key kvs with
          | none => .error ("Key \x27" ++ key ++ "\x27 not found in response")
          | some stored =>
              match value with
              | none => .ok ()
              | some v =>
                  if pyEq stored v then .ok ()
                  else .error ("Expected value mismatch for key " ++ key)
      | _ => .error "Response is not a JSON object"

/-- The attributes `APIClient.__init__` stores (the `requests.Session`
is an opaque handle). -/
structure APIClient where
  base_url : String
  timeout : Int
  session : Nat
  default_headers : List (String × String)

/-- `APIClient.__init__`: strips trailing slashes from the base URL,
keeps the timeout, opens a session, starts with no default headers. -/
def APIClient.init (base_url : String) (timeout : Int := 10) (session : Nat := 0) :
    APIClient :=
  { base_url := rstripSlash base_url, timeout := timeout,
    session := session, default_headers := [] }

/-- Python `{**a, **b}` on dicts with unique keys: the keys of `a` in
order (values replaced by `b`'s on collision), then the keys of `b` not
in `a`, in `b`'s order. -/
def pyDictMerge {α : Type} (a b : List (String × α)) : List (String × α) :=
  a.map (fun kv => (kv.1, (dictLookup kv.1 b).getD kv.2))
    ++ b.filter (fun kv => (dictLookup kv.1 a).isNone)

/-- What `requests.Session.request` hands back, as far as
`_make_request` reads it (`response.json()` is the try/except:
`json_parse = none` models the `ValueError` branch). -/
structure RawResponse where
  status_code : Int
  json_parse : Option Json
  text : String
  headers : List (String × String)
  elapsed_ms : Rat

/-- The HTTP transport: an oracle from (method, url, headers, timeout)
to the raw response, plus the log of requests issued on the session. -/
structure HttpWorld where
  respond : String → String → List (String × String) → Int → RawResponse
  log : List (String × String × List (String × String))

/-- `APIClient._make_request`: joins base URL and path with one slash,
merges default and per-call headers (per-call wins), issues the request
with the configured timeout, and wraps the raw response. -/
def APIClient.make_request (c : APIClient) (method path : String)
    (headers : List (String × String)) (w : HttpWorld) :
    APIClient × HttpWorld × Response :=
  let url := c.base_url ++ "/" ++ lstripSlash path
  let hdrs := pyDictMerge c.default_headers headers
  let raw := w.respond method url hdrs c.timeout
  (c,
   { w with log := w.log ++ [(method, url, hdrs)] },
   { status_code := raw.status_code, json_data := raw.json_parse,
     text := raw.text, headers := raw.headers, elapsed_ms := raw.elapsed_ms })

/-- `APIClient.get` (query parameters are forwarded opaquely to the
transport and never touch client state). -/
def APIClient.get (c : APIClient) (path : String)
    (params : Option (List (String × String)) := none)
    (headers : List (String × String) := []) (w : HttpWorld) :
    APIClient × HttpWorld × Response :=
  c.make_request "GET" path headers w

/-- `APIClient.post` (JSON / form bodies forwarded opaquely). -/
def APIClient.post (c : APIClient) (path : String) (json : Option Json := none)
    (data : Option String := none) (headers : List (String × String) := [])
    (w : HttpWorld) : APIClient × HttpWorld × Response :=
  c.make_request "POST" path headers w

/-- `APIClient.put`. -/
def APIClient.put (c : APIClient) (path : String) (json : Option Json := none)
    (headers : List (String × String) := []) (w : HttpWorld) :
    APIClient × HttpWorld × Response :=
  c.make_request "PUT" path headers w

/-- `APIClient.patch`. -/
def APIClient.patch (c : APIClient) (path : String) (json : Option Json := none)
    (headers : List (String × String) := []) (w : HttpWorld) :
    APIClient × HttpWorld × Response :=
  c.make_request "PATCH" path headers w

/-- `APIClient.delete`. -/
def APIClient.delete (c : APIClient) (path : String)
    (headers : List (String × String) := []) (w : HttpWorld) :
    APIClient × HttpWorld × Response :=
  c.make_request "DELETE" path headers w

/-- C7: `Response.ok` is true exactly when the status code lies in
`[200, 300)`; 200 gives `true`, 404 gives `false`. -/
theorem response_ok_iff :
    (∀ r : Response, r.ok = true ↔ 200 ≤ r.status_code ∧ r.status_code < 300)
    ∧ ({ status_code := 200, json_data := none, text := "", headers := [],
         elapsed_ms := 0 : Response }).ok = true
    ∧ ({ status_code := 404, json_data := none, text := "", headers := [],
         elapsed_ms := 0 : Response }).ok = false := by
  refine ⟨fun r => ?_, by decide, by decide⟩
  simp [Response.ok]

/-- C8: `response.json()` raises the "not JSON" error exactly when no
parsed body is stored, and otherwise returns the stored body unchanged. -/
theorem response_json_spec (r : Response) :
    (r.json = .error "Response is not JSON" ↔ r.json_data = none)
    ∧ (∀ d, r.json_data = some d → r.json = .ok d) := by
  constructor
  · unfold Response.json
    rcases r.json_data with _ | d <;> simp
  · intro d hd
    unfold Response.json
    rw [hd]

/-- Witness for C8: a response with no parsed body raises, one with a
body returns it. -/
theorem response_json_spec_witness :
    ({ status_code := 200, json_data := none, text := "plain text", headers := [],
       elapsed_ms := 0 : Response }).json = .error "Response is not JSON"
    ∧ ({ status_code := 200, json_data := some (.str "x"), text := "", headers := [],
         elapsed_ms := 0 : Response }).json = .ok (.str "x") :=
  ⟨(response_json_spec _).1.mpr rfl, (response_json_spec _).2 _ rfl⟩

/-- `some v` from the first dict if present, else the second lookup —
used to state merge/append lookup facts. -/
def orElseOpt {α : Type} (x y : Option α) : Option α :=
  match x with
  | some v => some v
  | none => y

theorem dictLookup_append {α : Type} (k : String) (l₁ l₂ : List (String × α)) :
    dictLookup k (l₁ ++ l₂) = orElseOpt (dictLookup k l₁) (dictLookup k l₂) := by
  induction l₁ with
  | nil => rfl
  | cons kv rest ih =>
      obtain ⟨k2, v⟩ := kv
      by_cases h : k = k2
      · simp [dictLookup, h, orElseOpt]
      · simp only [List.cons_append, dictLookup, if_neg h]
        exact ih

theorem dictLookup_mapOverride {α : Type} (k : String) (a b : List (String × α)) :
    dictLookup k (a.map (fun kv => (kv.1, (dictLookup kv.1 b).getD kv.2))) =
      (dictLookup k a).map (fun v => (dictLookup k b).getD v) := by
  induction a with
  | nil => rfl
  | cons kv rest ih =>
      obtain ⟨k2, v⟩ := kv
      by_cases h : k = k2
      · subst h; simp [dictLookup]
      · simp [dictLookup, h, ih]

theorem dictLookup_filterNotIn {α : Type} (k : String) (a b : List (String × α)) :
    dictLookup k (b.filter (fun kv => (dictLookup kv.1 a).isNone)) =
      (if (dictLookup k a).isNone then dictLookup k b else none) := by
  induction b with
  | nil => cases ha : (dictLookup k a).isNone <;> simp [ha, dictLookup]
  | cons kv rest ih =>
      obtain ⟨k2, v⟩ := kv
      by_cases h : k = k2
      · subst h
        cases ha : (dictLookup k a).isNone <;>
          simp [List.filter_cons, ha, dictLookup, ih]
      · cases ha2 : (dictLookup k2 a).isNone <;>
          simp [List.filter_cons, ha2, dictLookup, h, ih]

/-- The `{**default_headers, **call_headers}` merge, observed through
lookup: the per-call binding wins on collision, default bindings fill
the rest. -/
theorem dictLookup_pyDictMerge {α : Type} (a b : List (String × α)) (k : String) :
    dictLookup k (pyDictMerge a b) =
      orElseOpt (dictLookup k b) (dictLookup k a) := by
  rw [pyDictMerge, dictLookup_append, dictLookup_mapOverride, dictLookup_filterNotIn]
  rcases hb : dictLookup k b with _ | w <;> rcases ha : dictLookup k a with _ | v <;>
    simp [ha, hb, orElseOpt]

/-- C10: no request mutates the client — `_make_request` and all five
verb methods return the stored state (`base_url`, `timeout`, `session`,
`default_headers`) unchanged; the headers actually sent are a fresh
merge in which per-call bindings win over default bindings on key
collision while `default_headers` itself is untouched. -/
theorem apiClient_state_frame (c : APIClient) (method path : String)
    (headers : List (String × String)) (params : Option (List (String × String)))
    (jbody : Option Json) (dbody : Option String) (w : HttpWorld) :
    ((c.make_request method path headers w).1 = c
      ∧ (c.get path params headers w).1 = c
      ∧ (c.post path jbody dbody headers w).1 = c
      ∧ (c.put path jbody headers w).1 = c
      ∧ (c.patch path jbody headers w).1 = c
      ∧ (c.delete path headers w).1 = c)
    ∧ (∀ k, dictLookup k (pyDictMerge c.default_headers headers) =
        orElseOpt (dictLookup k headers) (dictLookup k c.default_headers))
    ∧ (c.make_request method path headers w).2.1.log =
        w.log ++ [(method, c.base_url ++ "/" ++ lstripSlash path,
                   pyDictMerge c.default_headers headers)] :=
  ⟨⟨rfl, rfl, rfl, rfl, rfl, rfl⟩,
    fun k => dictLookup_pyDictMerge c.default_headers headers k, rfl⟩

/-- C9: `assert_json_contains` succeeds exactly when the stored body is
a JSON object containing `key` whose value matches the supplied one (if
any); it fails with the "not found" message when the key is absent, with
the "not a JSON object" message on a non-object body, with the "not
JSON" error on a missing body, and with a mismatch error when a supplied
expected value differs from the stored one. -/
theorem assert_json_contains_spec (r : Response) (key : String) (value : Option Json) :
    (assert_json_contains r key value = .ok () ↔
      ∃ kvs stored, r.json_data = some (.obj kvs) ∧ dictLookup key kvs = some stored ∧
        ∀ v, value = some v → pyEq stored v = true)
    ∧ (∀ kvs, r.json_data = some (.obj kvs) → dictLookup key kvs = none →
        assert_json_contains r key value =
          .error ("Key \x27" ++ key ++ "\x27 not found in response"))
    ∧ (∀ j, r.json_data = some j → (∀ kvs, j ≠ .obj kvs) →
        assert_json_contains r key value = .error "Response is not a JSON object")
    ∧ (r.json_data = none → assert_json_contains r key value = .error "Response is not JSON")
    ∧ (∀ kvs stored v, r.json_data = some (.obj kvs) → dictLookup key kvs = some stored →
        value = some v → pyEq stored v = false →
        assert_json_contains r key value =
          .error ("Expected value mismatch for key " ++ key)) := by
  obtain ⟨sc, jd, tx, hd, el⟩ := r
  refine ⟨⟨?_, ?_⟩, ?_, ?_, ?_, ?_⟩
  · intro h
    rcases jd with _ | j
    · simp [assert_json_contains, Response.json] at h
    · rcases j with _ | b | n | s | xs | kvs <;>
        simp [assert_json_contains, Response.json] at h
      rcases hlk : dictLookup key kvs with _ | stored
      · simp [hlk] at h
      · refine ⟨kvs, stored, rfl, hlk, ?_⟩
        intro v hv
        subst hv
        simp [hlk] at h
        rcases hpe : pyEq stored v with _ | _
        · simp [hpe] at h
        · rfl
  · rintro ⟨kvs, stored, hj, hlk, hv⟩
    obtain rfl : jd = some (.obj kvs) := hj
    simp [assert_json_contains, Response.json, hlk]
    rcases value with _ | v
    · simp
    · have hok := hv v rfl
      simp [hok]
  · intro kvs hj hlk
    obtain rfl : jd = some (.obj kvs) := hj
    simp [assert_json_contains, Response.json, hlk]
  · intro j hj hne
    obtain rfl : jd = some j := hj
    rcases j with _ | b | n | s | xs | kvs <;>
      first
      | exact absurd rfl (hne _)
      | simp [assert_json_contains, Response.json]
  · intro hj
    obtain rfl : jd = none := hj
    rfl
  · intro kvs stored v hj hlk hv hpe
    obtain rfl : jd = some (.obj kvs) := hj
    obtain rfl : value = some v := hv
    simp [assert_json_contains, Response.json, hlk, hpe]

/-- The spec's example response for C9: body `{"name": "test"}`. -/
def respName : Response :=
  { status_code := 200, json_data := some (.obj [("name", .str "test")]),
    text := "", headers := [], elapsed_ms := 100 }

/-- Witness for C9 at the spec's examples: key `"name"` passes (with and
without expected value `"test"`), value `"other"` fails, key `"missing"`
fails with the not-found message. -/
theorem assert_json_contains_spec_witness :
    assert_json_contains respName "name" none = .ok ()
    ∧ assert_json_contains respName "name" (some (.str "test")) = .ok ()
    ∧ assert_json_contains respName "name" (some (.str "other")) ≠ .ok ()
    ∧ assert_json_contains respName "missing" none =
        .error ("Key \x27" ++ "missing" ++ "\x27 not found in response") := by
  refine ⟨?_, ?_, ?_, ?_⟩
  · exact (assert_json_contains_spec respName "name" none).1.mpr
      ⟨[("name", .str "test")], .str "test", rfl, rfl, fun v hv => nomatch hv⟩
  · exact (assert_json_contains_spec respName "name" (some (.str "test"))).1.mpr
      ⟨[("name", .str "test")], .str "test", rfl, rfl,
        fun v hv => by cases hv; simp [pyEq]⟩
  · intro h
    obtain ⟨kvs, stored, h1, h2, h3⟩ :=
      (assert_json_contains_spec respName "name" (some (.str "other"))).1.mp h
    obtain rfl : [("name", Json.str "test")] = kvs := by
      have h1b : Json.obj [("name", Json.str "test")] = Json.obj kvs :=
        Option.some.inj h1
      injection h1b
    obtain rfl : Json.str "test" = stored := by
      have h2b : some (Json.str "test") = some stored := h2
      exact Option.some.inj h2b
    have hcontra := h3 (.str "other") rfl
    simp [pyEq] at hcontra
  · exact (assert_json_contains_spec respName "missing" none).2.1
      [("name", .str "test")] rfl rfl

end Webtest
